import Mathlib

/-!
Verification development for the AgentBloom repository.

JavaScript numbers are modelled as exact rationals (ℚ); floating-point
rounding is not modelled. ISO timestamp strings, which the source only
ever compares through the time values produced by date parsing, are
modelled directly as integer time values.
-/

/-- Performance metrics sub-record of an agent (successRate, totalRuns, avgReward),
from the Agent interface in supabase.ts. -/
structure PerformanceMetricsRec where
  successRate : ℚ
  totalRuns : ℚ
  avgReward : ℚ
deriving DecidableEq

/-- Agent status enumeration from supabase.ts. -/
inductive AgentStatus
  | active
  | completed
  | failed
deriving DecidableEq

/-- Bounty status enumeration from supabase.ts; the source string status
"open" is modelled by the constructor open_. -/
inductive BountyStatus
  | open_
  | inProgress
  | closed
deriving DecidableEq

/-- Credit transaction type enumeration from supabase.ts. -/
inductive TransactionType
  | stake
  | unstake
  | spend
  | earn
  | refund
deriving DecidableEq

/-- Agent record from supabase.ts. -/
structure Agent where
  agentId : String
  userId : String
  name : String
  description : String
  promptTemplate : String
  performanceMetrics : PerformanceMetricsRec
  status : AgentStatus
  createdAt : Int
  updatedAt : Int
deriving DecidableEq

/-- Bounty record from supabase.ts. -/
structure Bounty where
  bountyId : String
  creatorId : String
  title : String
  description : String
  rewardAmount : ℚ
  status : BountyStatus
  assignedAgentId : Option String
  createdAt : Int
  updatedAt : Int
deriving DecidableEq

/-- Credit transaction record from supabase.ts. -/
structure CreditTransaction where
  transactionId : String
  userId : String
  type : TransactionType
  amount : ℚ
  description : Option String
  timestamp : Int
deriving DecidableEq

/-- Activity event type enumeration from the analytics service. -/
inductive ActivityType
  | agent_created
  | bounty_completed
  | credits_earned
  | agent_optimized
deriving DecidableEq

/-- Activity feed event from the analytics service. -/
structure ActivityEvent where
  id : String
  type : ActivityType
  timestamp : Int
  description : String
  value : Option ℚ
  agentId : Option String
  bountyId : Option String
deriving DecidableEq

/-- Result record of AnalyticsService.getUserPerformanceMetrics. -/
structure PerformanceMetrics where
  totalAgents : Nat
  activeAgents : Nat
  totalBounties : Nat
  completedBounties : Nat
  totalEarnings : ℚ
  averageSuccessRate : ℚ
  topPerformingAgent : Option Agent
  recentActivity : List ActivityEvent
deriving DecidableEq

/-- Event pushed for each agent by generateRecentActivity. -/
def agentCreatedEvent (agent : Agent) : ActivityEvent :=
  { id := "agent_" ++ agent.agentId
    type := ActivityType.agent_created
    timestamp := agent.createdAt
    description := "Created agent \"" ++ agent.name ++ "\""
    value := none
    agentId := some agent.agentId
    bountyId := none }

/-- Event pushed for each closed bounty by generateRecentActivity. -/
def bountyCompletedEvent (bounty : Bounty) : ActivityEvent :=
  { id := "bounty_" ++ bounty.bountyId
    type := ActivityType.bounty_completed
    timestamp := bounty.updatedAt
    description := "Completed bounty \"" ++ bounty.title ++ "\""
    value := some bounty.rewardAmount
    agentId := none
    bountyId := some bounty.bountyId }

/-- Event pushed for each transaction of type earn by generateRecentActivity. -/
def creditsEarnedEvent (t : CreditTransaction) : ActivityEvent :=
  { id := "earn_" ++ t.transactionId
    type := ActivityType.credits_earned
    timestamp := t.timestamp
    description := "Earned " ++ toString t.amount ++ " credits"
    value := some t.amount
    agentId := none
    bountyId := none }

/-- AnalyticsService.generateRecentActivity: concatenates agent-creation,
closed-bounty and earn-transaction events and sorts them by the comparator
new Date(b.timestamp).getTime() minus new Date(a.timestamp).getTime(),
which keeps a before b exactly when b.timestamp is at most a.timestamp
(JavaScript sort is stable, as is mergeSort). -/
def generateRecentActivity (agents : List Agent) (bounties : List Bounty)
    (transactions : List CreditTransaction) : List ActivityEvent :=
  let activities : List ActivityEvent :=
    agents.map agentCreatedEvent
      ++ (bounties.filter fun b => decide (b.status = BountyStatus.closed)).map
          bountyCompletedEvent
      ++ (transactions.filter fun t => decide (t.type = TransactionType.earn)).map
          creditsEarnedEvent
  activities.mergeSort fun a b => decide (b.timestamp ≤ a.timestamp)

/-- The reducer of the topPerformingAgent reduction in
getUserPerformanceMetrics: current.performanceMetrics.successRate greater
than best.performanceMetrics.successRate picks current, else keeps best. -/
def topStep (best current : Agent) : Agent :=
  if current.performanceMetrics.successRate > best.performanceMetrics.successRate
  then current else best

/-- Array.prototype.reduce with no initial value, as used for
topPerformingAgent: the first element seeds the fold. -/
def reduceTop : List Agent → Option Agent
  | [] => none
  | b :: rest => some (rest.foldl topStep b)

/-- The topPerformingAgent computation of getUserPerformanceMetrics:
a left-to-right reduction when agents is non-empty, null otherwise. -/
def topPerformingAgent (agents : List Agent) : Option Agent :=
  if agents.length > 0 then reduceTop agents else none

/-- The averageSuccessRate computation of getUserPerformanceMetrics. -/
def averageSuccessRate (agents : List Agent) : ℚ :=
  if agents.length > 0 then
    (agents.foldl (fun sum a => sum + a.performanceMetrics.successRate) 0)
      / (agents.length : ℚ)
  else 0

/-- AnalyticsService.getUserPerformanceMetrics. -/
def getUserPerformanceMetrics (userId : String) (agents : List Agent)
    (bounties : List Bounty) (transactions : List CreditTransaction) :
    PerformanceMetrics :=
  let userBounties := bounties.filter fun b => decide (b.creatorId = userId)
  let completedBounties := userBounties.filter fun b =>
    decide (b.status = BountyStatus.closed)
  let totalEarnings :=
    (transactions.filter fun t => decide (t.type = TransactionType.earn)).foldl
      (fun sum t => sum + t.amount) 0
  { totalAgents := agents.length
    activeAgents := (agents.filter fun a => decide (a.status = AgentStatus.active)).length
    totalBounties := userBounties.length
    completedBounties := completedBounties.length
    totalEarnings := totalEarnings
    averageSuccessRate := averageSuccessRate agents
    topPerformingAgent := topPerformingAgent agents
    recentActivity := (generateRecentActivity agents bounties transactions).take 10 }

/-- Result record of AnalyticsService.calculateStakingROI. -/
structure StakingROIResult where
  stakingROI : ℚ
  directPaymentCost : ℚ
  savings : ℚ
  breakEvenPoint : ℚ
deriving DecidableEq

/-- AnalyticsService.calculateStakingROI with its fixed constants
creditRate 0.05 and stakingRate 0.2, translated line by line. -/
def calculateStakingROI (stakedAmount creditsUsed timeframe : ℚ) :
    StakingROIResult :=
  let creditRate : ℚ := 0.05
  let stakingRate : ℚ := 0.2
  let directPaymentCost := creditsUsed * creditRate
  let stakingCost := stakedAmount
  let stakingCredits := stakedAmount / creditRate * (1 + stakingRate)
  let stakingValue := min creditsUsed stakingCredits * creditRate
  let savings := directPaymentCost - stakingValue
  let stakingROI := (savings / stakingCost) * 100
  let dailyCreditUsage := creditsUsed / timeframe
  let dailySavings := dailyCreditUsage * creditRate * stakingRate
  let breakEvenPoint := stakingCost / dailySavings
  { stakingROI := stakingROI
    directPaymentCost := directPaymentCost
    savings := savings
    breakEvenPoint := breakEvenPoint }

/-- The intermediate stakingValue of calculateStakingROI:
min of creditsUsed and the staking credits, times the credit rate. -/
def stakingValue (stakedAmount creditsUsed : ℚ) : ℚ :=
  min creditsUsed (stakedAmount / 0.05 * (1 + 0.2)) * 0.05

/-- Denominator of the stakingROI division in calculateStakingROI
(the stakingCost, which is the staked amount). -/
def stakingROIDenominator (stakedAmount : ℚ) : ℚ := stakedAmount

/-- Denominator of the breakEvenPoint division in calculateStakingROI
(the dailySavings). -/
def breakEvenDenominator (creditsUsed timeframe : ℚ) : ℚ :=
  creditsUsed / timeframe * 0.05 * 0.2

/-- Denominators of the four divisions performed by calculateStakingROI,
in source order: stakedAmount over creditRate, savings over stakingCost,
creditsUsed over timeframe, stakingCost over dailySavings. -/
def stakingROIDenominators (stakedAmount creditsUsed timeframe : ℚ) :
    List ℚ :=
  [0.05, stakingROIDenominator stakedAmount, timeframe,
    breakEvenDenominator creditsUsed timeframe]

/-- A division by zero occurs in calculateStakingROI exactly when one of
its denominators is zero. -/
def divisionByZeroHit (stakedAmount creditsUsed timeframe : ℚ) : Prop :=
  0 ∈ stakingROIDenominators stakedAmount creditsUsed timeframe

/-- Result record of OpenAIService.executeAgent. -/
structure AgentExecutionResult where
  success : Bool
  output : String
  tokensUsed : ℚ
  executionTime : ℚ
  error : Option String
deriving DecidableEq

/-- Network-level behaviour of OpenAIService.executeAgent: the completion
call either yields output text and a token count, or throws an error whose
message is captured; the catch branch returns a failure payload instead of
rethrowing. Wall-clock executionTime is a parameter of the model. -/
def executeAgent (networkResult : Except String (String × ℚ))
    (executionTime : ℚ) : AgentExecutionResult :=
  match networkResult with
  | Except.ok (output, tokensUsed) =>
    { success := true
      output := output
      tokensUsed := tokensUsed
      executionTime := executionTime
      error := none }
  | Except.error msg =>
    { success := false
      output := ""
      tokensUsed := 0
      executionTime := executionTime
      error := some msg }

/-- Result record of OpenAIService.optimizePrompt. -/
structure AgentOptimizationSuggestion where
  currentPrompt : String
  suggestedPrompt : String
  reasoning : String
  expectedImprovement : String
deriving DecidableEq

/-- Structured fields optimizePrompt reads from a successfully parsed JSON
response; the source reads them unchecked, so they are plain strings here. -/
structure OptimizeParsed where
  suggestedPrompt : String
  reasoning : String
  expectedImprovement : String
deriving DecidableEq

/-- Response handling of OpenAIService.optimizePrompt: a parsed JSON body
fills the suggestion, a JSON.parse failure (none) yields the hard-coded
fallback object. -/
def optimizePromptResult (currentPrompt : String)
    (parsed : Option OptimizeParsed) : AgentOptimizationSuggestion :=
  match parsed with
  | some p =>
    { currentPrompt := currentPrompt
      suggestedPrompt := p.suggestedPrompt
      reasoning := p.reasoning
      expectedImprovement := p.expectedImprovement }
  | none =>
    { currentPrompt := currentPrompt
      suggestedPrompt := currentPrompt
      reasoning := "Unable to generate optimization suggestions at this time."
      expectedImprovement := "Please try again later." }

/-- Network-level behaviour of OpenAIService.optimizePrompt: the outer
catch rethrows a single generic labeled error carrying the original
message; only the inner parse failure produces the fallback object. -/
def optimizePromptRun (currentPrompt : String)
    (networkResult : Except String (Option OptimizeParsed)) :
    Except String AgentOptimizationSuggestion :=
  match networkResult with
  | Except.ok parsed => Except.ok (optimizePromptResult currentPrompt parsed)
  | Except.error msg =>
    Except.error ("Prompt optimization failed: " ++ msg)

/-- Result record of OpenAIService.generatePerformanceInsights. -/
structure PerformanceInsights where
  strengths : List String
  weaknesses : List String
  recommendations : List String
  marketOpportunities : List String
deriving DecidableEq

/-- Structured fields generatePerformanceInsights reads from a parsed JSON
response; each is defaulted to the empty list when absent. -/
structure InsightsParsed where
  strengths : Option (List String)
  weaknesses : Option (List String)
  recommendations : Option (List String)
  marketOpportunities : Option (List String)
deriving DecidableEq

/-- Response handling of OpenAIService.generatePerformanceInsights: parsed
fields defaulted with the empty list, and the hard-coded fallback object on
JSON.parse failure. -/
def performanceInsightsResult (parsed : Option InsightsParsed) :
    PerformanceInsights :=
  match parsed with
  | some p =>
    { strengths := p.strengths.getD []
      weaknesses := p.weaknesses.getD []
      recommendations := p.recommendations.getD []
      marketOpportunities := p.marketOpportunities.getD [] }
  | none =>
    { strengths := ["Consistent performance"]
      weaknesses := ["Limited data for analysis"]
      recommendations := ["Continue monitoring performance"]
      marketOpportunities := ["Explore new task types"] }

/-- Network-level behaviour of OpenAIService.generatePerformanceInsights:
the outer catch rethrows a generic labeled error carrying the original
message. -/
def generatePerformanceInsightsRun
    (networkResult : Except String (Option InsightsParsed)) :
    Except String PerformanceInsights :=
  match networkResult with
  | Except.ok parsed => Except.ok (performanceInsightsResult parsed)
  | Except.error msg =>
    Except.error ("Performance analysis failed: " ++ msg)

/-- Result record of OpenAIService.validateBountySubmission. -/
structure ValidationResult where
  score : ℚ
  feedback : String
  meetsRequirements : Bool
  suggestions : List String
deriving DecidableEq

/-- Structured fields validateBountySubmission reads from a parsed JSON
response: score defaulted to 0, feedback defaulted, meetsRequirements
coerced through Boolean, suggestions kept only when an array. -/
structure ValidationParsed where
  score : Option ℚ
  feedback : Option String
  meetsRequirements : Bool
  suggestions : Option (List String)
deriving DecidableEq

/-- Response handling of OpenAIService.validateBountySubmission: the score
of a parsed response is clamped with max 0 (min 100 score), and the
hard-coded fallback object with score 50 is returned on JSON.parse
failure. -/
def validateBountySubmissionResult (parsed : Option ValidationParsed) :
    ValidationResult :=
  match parsed with
  | some p =>
    { score := max 0 (min 100 (p.score.getD 0))
      feedback := p.feedback.getD "No feedback available"
      meetsRequirements := p.meetsRequirements
      suggestions := p.suggestions.getD [] }
  | none =>
    { score := 50
      feedback := "Unable to evaluate submission at this time"
      meetsRequirements := false
      suggestions := ["Please resubmit for manual review"] }

/-- Network-level behaviour of OpenAIService.validateBountySubmission:
the outer catch rethrows a generic labeled error carrying the original
message. -/
def validateBountySubmissionRun
    (networkResult : Except String (Option ValidationParsed)) :
    Except String ValidationResult :=
  match networkResult with
  | Except.ok parsed => Except.ok (validateBountySubmissionResult parsed)
  | Except.error msg =>
    Except.error ("Submission validation failed: " ++ msg)

/-- Row update applied by bountyService.claimBounty to a matched row:
status inProgress, assignedAgentId set, updatedAt refreshed. -/
def claimUpdate (agentId : String) (now : Int) (b : Bounty) : Bounty :=
  { b with
    status := BountyStatus.inProgress
    assignedAgentId := some agentId
    updatedAt := now }

/-- Per-row effect of the claimBounty update statement: only rows matching
both eq filters (bountyId and status open) are updated. -/
def claimRow (bountyId agentId : String) (now : Int) (b : Bounty) : Bounty :=
  if b.bountyId = bountyId ∧ b.status = BountyStatus.open_
  then claimUpdate agentId now b else b

/-- The single-row result extraction performed by the .single() call:
some row when exactly one row was updated, an error (none) otherwise. -/
def singleRow : List Bounty → Option Bounty
  | [u] => some u
  | _ => none

/-- Data-layer model of bountyService.claimBounty over a table of bounty
rows: returns the updated table together with the .single() result over
the rows matched by the two eq filters. -/
def claimBounty (db : List Bounty) (bountyId agentId : String) (now : Int) :
    List Bounty × Option Bounty :=
  let matched := db.filter fun b =>
    decide (b.bountyId = bountyId ∧ b.status = BountyStatus.open_)
  (db.map (claimRow bountyId agentId now),
    singleRow (matched.map (claimUpdate agentId now)))

/-- User record of the client-side user context (part used by the launch
flow). -/
structure CtxUser where
  userId : String
  walletAddress : String
  creditBalance : ℚ
  stakedAmount : ℚ
deriving DecidableEq

/-- Form data of the agent launch screen. -/
structure LaunchFormData where
  name : String
  description : String
  promptTemplate : String
deriving DecidableEq

/-- Client-side state touched by handleCreditLaunch: the user record, the
agents array of the user context, and the launch form. -/
structure LaunchState where
  user : Option CtxUser
  agents : List Agent
  formData : LaunchFormData
deriving DecidableEq

/-- The agent record addAgent appends for a launch: form fields, zeroed
performance metrics, active status, generated id and creation time. -/
def launchedAgent (u : CtxUser) (form : LaunchFormData) (now : Int) : Agent :=
  { agentId := "agent_" ++ toString now
    userId := u.userId
    name := form.name
    description := form.description
    promptTemplate := form.promptTemplate
    performanceMetrics := { successRate := 0, totalRuns := 0, avgReward := 0 }
    status := AgentStatus.active
    createdAt := now
    updatedAt := now }

/-- handleCreditLaunch from the agent launch screen: bails out unless the
user exists, holds at least 10 credits and all three form fields are
non-empty; otherwise deducts 10 credits via updateUser, appends the new
agent via addAgent and resets the form. -/
def handleCreditLaunch (s : LaunchState) (now : Int) : LaunchState :=
  match s.user with
  | none => s
  | some u =>
    if u.creditBalance < 10 ∨ s.formData.name = "" ∨
        s.formData.description = "" ∨ s.formData.promptTemplate = "" then s
    else
      { user := some { u with creditBalance := u.creditBalance - 10 }
        agents := s.agents ++ [launchedAgent u s.formData now]
        formData := { name := "", description := "", promptTemplate := "" } }

/-- C1: calculateStakingROI computes, with fixed constants creditRate 0.05
and stakingRate 0.2, directPaymentCost as creditsUsed times 0.05,
savings as directPaymentCost minus the staking value
min(creditsUsed, stakedAmount / 0.05 * 1.2) * 0.05, stakingROI as
savings over stakedAmount times 100, and breakEvenPoint as stakedAmount
over ((creditsUsed / timeframe) * 0.05 * 0.2); in particular at
stakedAmount 20, creditsUsed 200, timeframe 30 it returns
directPaymentCost 10, staking value min(200, 480) * 0.05 = 10 and
savings 0. -/
theorem calculateStakingROI_spec (a c t : ℚ) :
    (calculateStakingROI a c t).directPaymentCost = c * 0.05 ∧
    (calculateStakingROI a c t).savings = c * 0.05 - stakingValue a c ∧
    stakingValue a c = min c (a / 0.05 * 1.2) * 0.05 ∧
    (calculateStakingROI a c t).stakingROI =
      (c * 0.05 - stakingValue a c) / a * 100 ∧
    (calculateStakingROI a c t).breakEvenPoint = a / (c / t * 0.05 * 0.2) ∧
    (calculateStakingROI 20 200 30).directPaymentCost = 10 ∧
    (20 : ℚ) / 0.05 * 1.2 = 480 ∧
    min (200 : ℚ) 480 = 200 ∧
    stakingValue 20 200 = 10 ∧
    (calculateStakingROI 20 200 30).savings = 0 := by
  refine ⟨rfl, rfl, by norm_num [stakingValue], rfl, rfl, ?_, by norm_num,
    by norm_num, ?_, ?_⟩
  · norm_num [calculateStakingROI]
  · norm_num [stakingValue]
  · norm_num [calculateStakingROI]

/-- C8: calculateStakingROI divides without a zero denominator exactly when
stakedAmount, creditsUsed and timeframe are all positive (over non-negative
inputs); with stakedAmount 0 the denominator of the stakingROI division is
zero, and with creditsUsed 0 or timeframe 0 the denominator of the
breakEvenPoint division is zero; the function has no guard against these
inputs. -/
theorem calculateStakingROI_division_guards (a c t : ℚ)
    (ha : 0 ≤ a) (hc : 0 ≤ c) (ht : 0 ≤ t) :
    (¬ divisionByZeroHit a c t ↔ (0 < a ∧ 0 < c ∧ 0 < t)) ∧
    (a = 0 → stakingROIDenominator a = 0) ∧
    ((c = 0 ∨ t = 0) → breakEvenDenominator c t = 0) := by
  refine ⟨?_, ?_, ?_⟩
  · simp only [divisionByZeroHit, stakingROIDenominators,
      stakingROIDenominator, breakEvenDenominator, List.mem_cons,
      List.not_mem_nil, or_false, not_or]
    constructor
    · rintro ⟨-, hA, hT, hD⟩
      have ha' : 0 < a := ha.lt_of_ne hA
      have ht' : 0 < t := ht.lt_of_ne hT
      have hc' : 0 < c := by
        rcases hc.lt_or_eq with h | h
        · exact h
        · exfalso
          apply hD
          rw [← h, zero_div, zero_mul, zero_mul]
      exact ⟨ha', hc', ht'⟩
    · rintro ⟨ha', hc', ht'⟩
      refine ⟨by norm_num, ne_of_lt ha', ne_of_lt ht', ne_of_lt ?_⟩
      positivity
  · intro h
    simp [stakingROIDenominator, h]
  · rintro (h | h) <;> simp [breakEvenDenominator, h]

/-- Witness for calculateStakingROI_division_guards at stakedAmount 20,
creditsUsed 200, timeframe 30. -/
theorem calculateStakingROI_division_guards_witness :
    (¬ divisionByZeroHit 20 200 30 ↔
      ((0 : ℚ) < 20 ∧ (0 : ℚ) < 200 ∧ (0 : ℚ) < 30)) ∧
    ((20 : ℚ) = 0 → stakingROIDenominator 20 = 0) ∧
    (((200 : ℚ) = 0 ∨ (30 : ℚ) = 0) → breakEvenDenominator 200 30 = 0) :=
  calculateStakingROI_division_guards 20 200 30 (by norm_num) (by norm_num)
    (by norm_num)

/-- Folding addition of success rates equals the initial value plus the sum
of the mapped success rates. -/
theorem foldl_add_successRate (agents : List Agent) (x : ℚ) :
    agents.foldl (fun sum a => sum + a.performanceMetrics.successRate) x
      = x + (agents.map fun a => a.performanceMetrics.successRate).sum := by
  induction agents generalizing x with
  | nil => simp
  | cons a l ih =>
    simp only [List.foldl_cons, List.map_cons, List.sum_cons]
    rw [ih, add_assoc]

/-- C4: the averageSuccessRate returned by getUserPerformanceMetrics equals
the sum of the agents' success rates divided by the number of agents, and
equals 0 for an empty agent list. -/
theorem averageSuccessRate_spec (userId : String) (agents : List Agent)
    (bounties : List Bounty) (transactions : List CreditTransaction) :
    (getUserPerformanceMetrics userId agents bounties
        transactions).averageSuccessRate
      = (agents.map fun a => a.performanceMetrics.successRate).sum
          / (agents.length : ℚ) ∧
    (getUserPerformanceMetrics userId [] bounties
        transactions).averageSuccessRate = 0 := by
  constructor
  · show averageSuccessRate agents = _
    cases agents with
    | nil => simp [averageSuccessRate]
    | cons a l =>
      simp only [averageSuccessRate, List.length_cons, gt_iff_lt,
        Nat.succ_pos, if_pos]
      rw [foldl_add_successRate, zero_add]
  · rfl

/-- C6: when the completion response body fails to parse as JSON, each
structured-output wrapper returns its documented hard-coded fallback
object: optimizePrompt keeps the current prompt with the documented
reasoning text, generatePerformanceInsights returns the canned insight
lists, and validateBountySubmission returns score 50 with
meetsRequirements false; each handler is a total function, so no
exception escapes. -/
theorem parseFailure_fallbacks (currentPrompt : String) :
    optimizePromptResult currentPrompt none =
      { currentPrompt := currentPrompt
        suggestedPrompt := currentPrompt
        reasoning := "Unable to generate optimization suggestions at this time."
        expectedImprovement := "Please try again later." } ∧
    performanceInsightsResult none =
      { strengths := ["Consistent performance"]
        weaknesses := ["Limited data for analysis"]
        recommendations := ["Continue monitoring performance"]
        marketOpportunities := ["Explore new task types"] } ∧
    validateBountySubmissionResult none =
      { score := 50
        feedback := "Unable to evaluate submission at this time"
        meetsRequirements := false
        suggestions := ["Please resubmit for manual review"] } :=
  ⟨rfl, rfl, rfl⟩

/-- C9: for every completion response, including well-formed JSON with an
arbitrary or missing score field, the score returned by
validateBountySubmission lies between 0 and 100 inclusive: the parsed
value is clamped with max 0 (min 100 score) and the fallback path
returns 50. -/
theorem validateBountySubmission_score_bounds
    (parsed : Option ValidationParsed) :
    0 ≤ (validateBountySubmissionResult parsed).score ∧
    (validateBountySubmissionResult parsed).score ≤ 100 := by
  cases parsed with
  | none =>
    constructor <;> norm_num [validateBountySubmissionResult]
  | some p =>
    constructor
    · exact le_max_left 0 _
    · exact max_le (by norm_num) (min_le_left _ _)

/-- C7 counterexample: on failure of the network call itself, the
optimization wrapper optimizePrompt does not return a best-effort
fallback payload; it surfaces the labeled error
"Prompt optimization failed" carrying the original message. -/
theorem optimizePrompt_network_failure_counterexample :
    optimizePromptRun "p" (Except.error "network down") =
      Except.error "Prompt optimization failed: network down" ∧
    optimizePromptRun "p" (Except.error "network down") ≠
      Except.ok (optimizePromptResult "p" none) :=
  ⟨rfl, by simp [optimizePromptRun]⟩

/-- C7 amended: on network failure, no wrapper retries; executeAgent
returns a failure payload carrying the error message, while
optimizePrompt, generatePerformanceInsights and validateBountySubmission
each rethrow a single generic labeled error carrying the original
message. -/
theorem network_failure_pattern (msg currentPrompt : String)
    (executionTime : ℚ) :
    executeAgent (Except.error msg) executionTime =
      { success := false
        output := ""
        tokensUsed := 0
        executionTime := executionTime
        error := some msg } ∧
    optimizePromptRun currentPrompt (Except.error msg) =
      Except.error ("Prompt optimization failed: " ++ msg) ∧
    generatePerformanceInsightsRun (Except.error msg) =
      Except.error ("Performance analysis failed: " ++ msg) ∧
    validateBountySubmissionRun (Except.error msg) =
      Except.error ("Submission validation failed: " ++ msg) :=
  ⟨rfl, rfl, rfl, rfl⟩

/-- A row produced by the .single() extraction belongs to the updated-row
list it was drawn from. -/
theorem singleRow_mem {l : List Bounty} {u : Bounty}
    (h : singleRow l = some u) : u ∈ l := by
  cases l with
  | nil => simp [singleRow] at h
  | cons x xs =>
    cases xs with
    | nil =>
      simp only [singleRow, Option.some.injEq] at h
      simp [h]
    | cons y ys => simp [singleRow] at h

/-- C5: the data-layer claim operation succeeds, setting the bounty status
to inProgress and its assignedAgentId to the given agent, only when the
matched row's prior status was open; every row whose status is inProgress
or closed is left unchanged by the per-row update. -/
theorem claimBounty_spec (db : List Bounty) (bountyId agentId : String)
    (now : Int) :
    (∀ u, (claimBounty db bountyId agentId now).2 = some u →
      u.status = BountyStatus.inProgress ∧
      u.assignedAgentId = some agentId ∧
      ∃ b, b ∈ db ∧ b.status = BountyStatus.open_ ∧ b.bountyId = bountyId ∧
        u = claimUpdate agentId now b) ∧
    ((claimBounty db bountyId agentId now).1 =
      db.map (claimRow bountyId agentId now)) ∧
    (∀ b : Bounty,
      b.status = BountyStatus.inProgress ∨ b.status = BountyStatus.closed →
      claimRow bountyId agentId now b = b) ∧
    (∀ b : Bounty, b.status = BountyStatus.open_ → b.bountyId = bountyId →
      claimRow bountyId agentId now b = claimUpdate agentId now b) := by
  refine ⟨?_, rfl, ?_, ?_⟩
  · intro u hu
    have hmem : u ∈ (db.filter fun b =>
        decide (b.bountyId = bountyId ∧ b.status = BountyStatus.open_)).map
          (claimUpdate agentId now) := singleRow_mem hu
    simp only [List.mem_map, List.mem_filter, decide_eq_true_eq] at hmem
    obtain ⟨b, ⟨hbdb, hbid, hbopen⟩, heq⟩ := hmem
    subst heq
    exact ⟨rfl, rfl, b, hbdb, hbopen, hbid, rfl⟩
  · intro b hb
    have hcond : ¬(b.bountyId = bountyId ∧ b.status = BountyStatus.open_) := by
      rintro ⟨-, h2⟩
      rcases hb with h | h <;> rw [h] at h2 <;> exact BountyStatus.noConfusion h2
    simp [claimRow, hcond]
  · intro b h1 h2
    simp [claimRow, h1, h2]

/-- Closed bounty used to exercise the claim-operation theorem. -/
def exClosedBounty : Bounty :=
  { bountyId := "b1"
    creatorId := "u1"
    title := "t"
    description := "d"
    rewardAmount := 5
    status := BountyStatus.closed
    assignedAgentId := none
    createdAt := 0
    updatedAt := 0 }

/-- Witness for claimBounty_spec: claiming over a table holding one closed
bounty leaves that row unchanged. -/
theorem claimBounty_spec_witness :
    claimRow "b1" "a1" 7 exClosedBounty = exClosedBounty :=
  (claimBounty_spec [exClosedBounty] "b1" "a1" 7).2.2.1 exClosedBounty
    (Or.inr rfl)

/-- C10: handleCreditLaunch deducts exactly 10 credits and appends exactly
one new agent, with zeroed performance metrics and active status, only
when the user exists with creditBalance at least 10 and all three form
fields are non-empty, in which case the resulting balance is
non-negative; in every other case the state is unchanged. -/
theorem handleCreditLaunch_spec (s : LaunchState) (now : Int) :
    (∀ u, s.user = some u → 10 ≤ u.creditBalance →
      s.formData.name ≠ "" → s.formData.description ≠ "" →
      s.formData.promptTemplate ≠ "" →
      (handleCreditLaunch s now).user =
        some { u with creditBalance := u.creditBalance - 10 } ∧
      0 ≤ u.creditBalance - 10 ∧
      (handleCreditLaunch s now).agents =
        s.agents ++ [launchedAgent u s.formData now] ∧
      (launchedAgent u s.formData now).performanceMetrics =
        { successRate := 0, totalRuns := 0, avgReward := 0 } ∧
      (launchedAgent u s.formData now).status = AgentStatus.active) ∧
    (s.user = none → handleCreditLaunch s now = s) ∧
    (∀ u, s.user = some u →
      (u.creditBalance < 10 ∨ s.formData.name = "" ∨
        s.formData.description = "" ∨ s.formData.promptTemplate = "") →
      handleCreditLaunch s now = s) := by
  refine ⟨?_, ?_, ?_⟩
  · intro u hu hbal hn hd hp
    have hcond : ¬(u.creditBalance < 10 ∨ s.formData.name = "" ∨
        s.formData.description = "" ∨ s.formData.promptTemplate = "") := by
      push_neg
      exact ⟨hbal, hn, hd, hp⟩
    have hrun : handleCreditLaunch s now =
        { user := some { u with creditBalance := u.creditBalance - 10 }
          agents := s.agents ++ [launchedAgent u s.formData now]
          formData := { name := "", description := "", promptTemplate := "" } } := by
      simp only [handleCreditLaunch, hu, if_neg hcond]
    rw [hrun]
    exact ⟨rfl, by linarith, rfl, rfl, rfl⟩
  · intro hu
    simp [handleCreditLaunch, hu]
  · intro u hu hcond
    simp only [handleCreditLaunch, hu, if_pos hcond]

/-- User record used to exercise the credit-launch theorem. -/
def exUser : CtxUser :=
  { userId := "u1", walletAddress := "w", creditBalance := 15,
    stakedAmount := 0 }

/-- Form data used to exercise the credit-launch theorem. -/
def exForm : LaunchFormData :=
  { name := "n", description := "d", promptTemplate := "p" }

/-- Launch state used to exercise the credit-launch theorem. -/
def exLaunchState : LaunchState :=
  { user := some exUser, agents := [], formData := exForm }

/-- Witness for handleCreditLaunch_spec: a user with 15 credits and a
filled form launches, ending with 5 credits and one new active agent. -/
theorem handleCreditLaunch_spec_witness :
    (handleCreditLaunch exLaunchState 3).user =
      some { exUser with creditBalance := exUser.creditBalance - 10 } ∧
    0 ≤ exUser.creditBalance - 10 ∧
    (handleCreditLaunch exLaunchState 3).agents =
      exLaunchState.agents ++ [launchedAgent exUser exLaunchState.formData 3] ∧
    (launchedAgent exUser exLaunchState.formData 3).performanceMetrics =
      { successRate := 0, totalRuns := 0, avgReward := 0 } ∧
    (launchedAgent exUser exLaunchState.formData 3).status =
      AgentStatus.active :=
  (handleCreditLaunch_spec exLaunchState 3).1 exUser rfl
    (by norm_num [exUser]) (by simp [exLaunchState, exForm])
    (by simp [exLaunchState, exForm]) (by simp [exLaunchState, exForm])

/-- C2: the recentActivity list returned by getUserPerformanceMetrics is a
prefix of at most 10 entries of a non-increasing-by-timestamp sorting of
the concatenation of one agent-creation event per agent, one completion
event per closed bounty and one earning event per earn transaction. -/
theorem recentActivity_spec (userId : String) (agents : List Agent)
    (bounties : List Bounty) (transactions : List CreditTransaction) :
    ∃ l : List ActivityEvent,
      l.Perm (agents.map agentCreatedEvent
        ++ (bounties.filter fun b =>
            decide (b.status = BountyStatus.closed)).map bountyCompletedEvent
        ++ (transactions.filter fun t =>
            decide (t.type = TransactionType.earn)).map creditsEarnedEvent) ∧
      List.Sorted (fun x y : ActivityEvent => y.timestamp ≤ x.timestamp) l ∧
      (getUserPerformanceMetrics userId agents bounties
          transactions).recentActivity = l.take 10 ∧
      (getUserPerformanceMetrics userId agents bounties
          transactions).recentActivity.length ≤ 10 := by
  refine ⟨generateRecentActivity agents bounties transactions, ?_, ?_, rfl, ?_⟩
  · exact List.mergeSort_perm _ _
  · have h := @List.sorted_mergeSort ActivityEvent
      (fun a b : ActivityEvent => decide (b.timestamp ≤ a.timestamp))
      (fun a b c hab hbc => by
        simp only [decide_eq_true_eq] at *
        exact le_trans hbc hab)
      (fun a b => by
        simp only [Bool.or_eq_true, decide_eq_true_eq]
        exact le_total b.timestamp a.timestamp)
      (agents.map agentCreatedEvent
        ++ (bounties.filter fun b =>
            decide (b.status = BountyStatus.closed)).map bountyCompletedEvent
        ++ (transactions.filter fun t =>
            decide (t.type = TransactionType.earn)).map creditsEarnedEvent)
    exact h.imp fun hab => of_decide_eq_true hab
  · have heq : (getUserPerformanceMetrics userId agents bounties
        transactions).recentActivity =
        (generateRecentActivity agents bounties transactions).take 10 := rfl
    rw [heq]
    exact List.length_take_le 10
      (generateRecentActivity agents bounties transactions)

/-- The left-to-right reduction with topStep lands on an element of the
seeded list whose success rate bounds every element, and every element
strictly before it in the list has a strictly smaller success rate. -/
theorem reduceTop_foldl_spec (rest : List Agent) (b : Agent) :
    ∃ l1 l2, b :: rest = l1 ++ (rest.foldl topStep b) :: l2 ∧
      (∀ x ∈ l1, x.performanceMetrics.successRate <
        (rest.foldl topStep b).performanceMetrics.successRate) ∧
      (∀ x ∈ b :: rest, x.performanceMetrics.successRate ≤
        (rest.foldl topStep b).performanceMetrics.successRate) := by
  induction rest generalizing b with
  | nil =>
    refine ⟨[], [], rfl, by simp, ?_⟩
    intro x hx
    simp only [List.mem_singleton] at hx
    subst hx
    simp
  | cons a rest ih =>
    rw [List.foldl_cons]
    by_cases hab : a.performanceMetrics.successRate >
        b.performanceMetrics.successRate
    · have hstep : topStep b a = a := by simp [topStep, hab]
      rw [hstep]
      obtain ⟨l1, l2, heq, hlt, hle⟩ := ih a
      have haR : a.performanceMetrics.successRate ≤
          (rest.foldl topStep a).performanceMetrics.successRate :=
        hle a (List.mem_cons_self a rest)
      refine ⟨b :: l1, l2, ?_, ?_, ?_⟩
      · rw [List.cons_append, ← heq]
      · intro x hx
        rcases List.mem_cons.mp hx with rfl | hx'
        · exact lt_of_lt_of_le hab haR
        · exact hlt x hx'
      · intro x hx
        rcases List.mem_cons.mp hx with rfl | hx'
        · exact le_of_lt (lt_of_lt_of_le hab haR)
        · exact hle x hx'
    · have hstep : topStep b a = b := by simp [topStep, hab]
      rw [hstep]
      have hab' : a.performanceMetrics.successRate ≤
          b.performanceMetrics.successRate := not_lt.mp hab
      obtain ⟨l1, l2, heq, hlt, hle⟩ := ih b
      cases l1 with
      | nil =>
        simp only [List.nil_append] at heq
        injection heq with h1 h2
        refine ⟨[], a :: rest, ?_, by simp, ?_⟩
        · rw [List.nil_append, ← h1]
        · intro x hx
          rw [← h1]
          rcases List.mem_cons.mp hx with rfl | hx'
          · exact le_refl _
          · rcases List.mem_cons.mp hx' with rfl | hx''
            · exact hab'
            · have hxr := hle x (List.mem_cons_of_mem b hx'')
              rw [← h1] at hxr
              exact hxr
      | cons p l1' =>
        injection heq with hp hrest
        have hbR : b.performanceMetrics.successRate <
            (rest.foldl topStep b).performanceMetrics.successRate := by
          have h0 := hlt p (List.mem_cons_self p l1')
          rw [← hp] at h0
          exact h0
        refine ⟨b :: a :: l1', l2, ?_, ?_, ?_⟩
        · simp only [List.cons_append]
          exact congrArg (fun l => b :: a :: l) hrest
        · intro x hx
          rcases List.mem_cons.mp hx with rfl | hx'
          · exact hbR
          · rcases List.mem_cons.mp hx' with rfl | hx''
            · exact lt_of_le_of_lt hab' hbR
            · exact hlt x (List.mem_cons_of_mem p hx'')
        · intro x hx
          rcases List.mem_cons.mp hx with rfl | hx'
          · exact hle x (List.mem_cons_self x rest)
          · rcases List.mem_cons.mp hx' with rfl | hx''
            · exact le_trans hab' (hle b (List.mem_cons_self b rest))
            · exact hle x (List.mem_cons_of_mem b hx'')

/-- C3: for a non-empty agent list, topPerformingAgent returns an agent of
the list whose success rate is greater than or equal to every agent's, and
every agent occurring before it in iteration order has a strictly smaller
rate (so with ties, in particular all-equal rates, the first maximal agent
is returned); for an empty list it returns none. -/
theorem topPerformingAgent_spec (agents : List Agent) :
    (agents = [] → topPerformingAgent agents = none) ∧
    (agents ≠ [] → ∃ top, topPerformingAgent agents = some top ∧
      top ∈ agents ∧
      (∀ x ∈ agents, x.performanceMetrics.successRate ≤
        top.performanceMetrics.successRate) ∧
      ∃ l1 l2, agents = l1 ++ top :: l2 ∧
        ∀ x ∈ l1, x.performanceMetrics.successRate <
          top.performanceMetrics.successRate) := by
  constructor
  · rintro rfl
    rfl
  · intro h
    cases agents with
    | nil => exact absurd rfl h
    | cons b rest =>
      obtain ⟨l1, l2, heq, hlt, hle⟩ := reduceTop_foldl_spec rest b
      refine ⟨rest.foldl topStep b, ?_, ?_, hle, l1, l2, heq, hlt⟩
      · simp [topPerformingAgent, reduceTop]
      · rw [heq]
        exact List.mem_append.mpr (Or.inr (List.mem_cons_self _ _))

/-- Agent with success rate 80, first in the witness list. -/
def agA : Agent :=
  { agentId := "a1"
    userId := "u1"
    name := "A"
    description := ""
    promptTemplate := ""
    performanceMetrics := { successRate := 80, totalRuns := 1, avgReward := 2 }
    status := AgentStatus.active
    createdAt := 0
    updatedAt := 0 }

/-- Agent with success rate 80, second in the witness list. -/
def agB : Agent :=
  { agentId := "a2"
    userId := "u1"
    name := "B"
    description := ""
    promptTemplate := ""
    performanceMetrics := { successRate := 80, totalRuns := 3, avgReward := 4 }
    status := AgentStatus.active
    createdAt := 0
    updatedAt := 0 }

/-- Witness for topPerformingAgent_spec on two agents with equal rates. -/
theorem topPerformingAgent_spec_witness :
    ∃ top, topPerformingAgent [agA, agB] = some top ∧
      top ∈ [agA, agB] ∧
      (∀ x ∈ [agA, agB], x.performanceMetrics.successRate ≤
        top.performanceMetrics.successRate) ∧
      ∃ l1 l2, [agA, agB] = l1 ++ top :: l2 ∧
        ∀ x ∈ l1, x.performanceMetrics.successRate <
          top.performanceMetrics.successRate :=
  (topPerformingAgent_spec [agA, agB]).2 (by simp)
